import Mathlib

/-!
Verification of the joint sensor publisher
(`src/module/mujoco_sim_module/publisher/joint_sensor_publisher.cc`).

The development shallowly embeds the three setup/tick routines of
`JointSensorPublisher`:

* `CheckFrequency` — frequency validation (`JointSensorPublisher::CheckFrequency`);
* `RegisterSensorAddr` — sensor-name binding (`JointSensorPublisher::RegisterSensorAddr`);
* `PublishSensorDataStep` — the per-tick emit decision and counter renormalization
  of `JointSensorPublisher::PublishSensorData`.

C++ `uint32_t` values are embedded as `ℕ` with explicit reduction modulo `2^32`
where a narrowing conversion happens in the source; the `double` accumulator of
the rate divider is embedded as an exact `ℚ` value (the spec's "fixed-point
equivalent"); code that would perform an integer division by zero (undefined
behaviour) is embedded as `Option.none`.
-/

namespace AimrtMujocoSim

/-! ## Frequency validation (`JointSensorPublisher::CheckFrequency`) -/

/-- Source constant `MAX_SIM_FRQ = 1000` (`joint_sensor_publisher.cc:132`). -/
def MAX_SIM_FRQ : ℕ := 1000

/-- Source constant `kError = 0.05` (`joint_sensor_publisher.cc:133`). -/
def kError : ℚ := 0.05

/-- Setup-fatal frequency errors: the two `AIMRT_CHECK_ERROR_THROW` sites of
`CheckFrequency` (`joint_sensor_publisher.cc:135,148`). -/
inductive FrequencyError where
  | ExceedsTickRate
  | UnachievablePrecision
deriving DecidableEq

/-- Embedding of `JointSensorPublisher::CheckFrequency`
(`joint_sensor_publisher.cc:131-151`).  `channel_frq` is the `uint32_t`
member `channel_frq_`;  the returned `ℚ` is the computed
`avg_interval_base_`.  `none` marks the control path on which the C++
executes `MAX_SIM_FRQ % channel_frq_` with `channel_frq_ = 0`, an integer
division by zero (undefined behaviour); the prior floating division
`1000.0 / 0` is defined in IEEE arithmetic but its value is never used on
that path. -/
def CheckFrequency (channel_frq : ℕ) : Option (Except FrequencyError ℚ) :=
  if channel_frq ≤ MAX_SIM_FRQ then
    let avg_interval_base : ℚ := (MAX_SIM_FRQ : ℚ) / (channel_frq : ℚ)
    if channel_frq = 0 then none
    else if MAX_SIM_FRQ % channel_frq = 0 then some (Except.ok avg_interval_base)
    else
      let lower_interval : ℕ := MAX_SIM_FRQ / channel_frq
      let upper_interval : ℕ := lower_interval + 1
      let lower_error : ℚ := |(lower_interval : ℚ) - avg_interval_base| / avg_interval_base
      let upper_error : ℚ := |(upper_interval : ℚ) - avg_interval_base| / avg_interval_base
      if lower_error ≤ kError ∧ upper_error ≤ kError then some (Except.ok avg_interval_base)
      else some (Except.error FrequencyError.UnachievablePrecision)
  else some (Except.error FrequencyError.ExceedsTickRate)

/-! ## Sensor binding (`JointSensorPublisher::RegisterSensorAddr`) -/

/-- One entry of `Options::joints` (`joint_sensor_publisher.cc:33-37`). -/
structure JointOptions where
  name : String
  bind_joint : String
  bind_jointpos_sensor : String
  bind_jointvel_sensor : String

/-- Value range of the C++ `uint32_t` type. -/
def U32_MOD : ℕ := 2 ^ 32

/-- Narrowing conversion of a C++ `int` value (the result of `mj_name2id`,
or the literal `-1`) into the `uint32_t` locals `pos_idx` / `vel_idx`
(`joint_sensor_publisher.cc:104-110`): reduction modulo `2^32`. -/
def u32ofInt (i : ℤ) : ℕ := (i % (U32_MOD : ℤ)).toNat

/-- Modelled from the spec: the field types of `SensorAddrGroup` are declared
in `joint_sensor_publisher.h`, which is not among the sources.  The spec's
data model (BindingEntry) makes a slot index an optional non-negative integer
with `-1` as the "not bound" sentinel, and `PublishSensorData` tests
`addr.jointpos_addr >= 0`, so the fields are signed; storing the `uint32_t`
locals into them is the usual modular narrowing to a signed 32-bit value. -/
def i32ofU32 (n : ℕ) : ℤ := if n < 2 ^ 31 then (n : ℤ) else (n : ℤ) - (U32_MOD : ℤ)

/-- The per-joint entry of `sensor_addr_vec_` (`joint_sensor_publisher.cc:121-123`);
see `i32ofU32` for the signedness of the fields. -/
structure SensorAddrGroup where
  jointpos_addr : ℤ
  jointvel_addr : ℤ
deriving DecidableEq

/-- Setup-fatal binding errors: the two `AIMRT_CHECK_ERROR_THROW` sites of
`RegisterSensorAddr` (`joint_sensor_publisher.cc:113,117`). -/
inductive BindingError where
  | InvalidPositionSensorName (name : String)
  | InvalidVelocitySensorName (name : String)
deriving DecidableEq

/-- The `uint32_t` local `pos_idx` / `vel_idx` (`joint_sensor_publisher.cc:104-110`):
a non-empty name is resolved through `mj_name2id` (embedded as the injected
`resolver`, `-1` meaning not found), an empty name yields `-1` directly, and
the signed result is narrowed to `uint32_t`. -/
def resolveIdx (resolver : String → ℤ) (name : String) : ℕ :=
  u32ofInt (if name.isEmpty = false then resolver name else -1)

/-- Embedding of `JointSensorPublisher::RegisterSensorAddr`
(`joint_sensor_publisher.cc:102-129`): walk `options_.joints` in order,
building `sensor_addr_vec_` and `name_vec_`.  The two error checks compare
the `uint32_t` locals against `0`, exactly as the C++ does (`pos_idx < 0`
on an unsigned value). -/
def RegisterSensorAddr (resolver : String → ℤ) :
    List JointOptions → Except BindingError (List SensorAddrGroup × List String)
  | [] => Except.ok ([], [])
  | joint :: rest =>
    let pos_idx : ℕ := resolveIdx resolver joint.bind_jointpos_sensor
    let vel_idx : ℕ := resolveIdx resolver joint.bind_jointvel_sensor
    if joint.bind_jointpos_sensor.isEmpty = false ∧ pos_idx < 0 then
      Except.error (BindingError.InvalidPositionSensorName joint.bind_jointpos_sensor)
    else if joint.bind_jointvel_sensor.isEmpty = false ∧ vel_idx < 0 then
      Except.error (BindingError.InvalidVelocitySensorName joint.bind_jointvel_sensor)
    else
      match RegisterSensorAddr resolver rest with
      | Except.error e => Except.error e
      | Except.ok (addrs, names) =>
          Except.ok (⟨i32ofU32 pos_idx, i32ofU32 vel_idx⟩ :: addrs, joint.name :: names)

/-- The `SensorAddrGroup` built for one joint (`joint_sensor_publisher.cc:121-123`). -/
def addrOf (resolver : String → ℤ) (joint : JointOptions) : SensorAddrGroup :=
  ⟨i32ofU32 (resolveIdx resolver joint.bind_jointpos_sensor),
    i32ofU32 (resolveIdx resolver joint.bind_jointvel_sensor)⟩

/-! ## Snapshot and message building (`JointSensorPublisher::PublishSensorData`) -/

/-- One snapshot record (`SensorStateGroup`, filled at
`joint_sensor_publisher.cc:76-80`). -/
structure SensorStateGroup where
  jointpos_state : ℚ
  jointvel_state : ℚ
deriving DecidableEq

/-- Reading one slot of `d_->sensordata` at snapshot time
(`joint_sensor_publisher.cc:78-79`): a non-negative bound address is read
from the buffer, the `-1` sentinel yields `0.0`. -/
def readSlot (sensordata : ℤ → ℚ) (addr : ℤ) : ℚ :=
  if addr ≥ 0 then sensordata addr else 0

/-- The `state_array` snapshot loop of `PublishSensorData`
(`joint_sensor_publisher.cc:74-80`). -/
def buildStateArray (sensordata : ℤ → ℚ) (addrs : List SensorAddrGroup) :
    List SensorStateGroup :=
  addrs.map fun addr =>
    ⟨readSlot sensordata addr.jointpos_addr, readSlot sensordata addr.jointvel_addr⟩

/-- One record of the published `JointState` message
(`joint_sensor_publisher.cc:84-89`). -/
structure JointStateData where
  name : String
  position : ℚ
  velocity : ℚ
deriving DecidableEq

/-- The message-building loop run on the executor
(`joint_sensor_publisher.cc:82-92`): one `(name, position, velocity)`
record per joint, in vector order. -/
def buildJointStateMsg (name_vec : List String) (states : List SensorStateGroup) :
    List JointStateData :=
  (List.zip name_vec states).map fun p => ⟨p.1, p.2.jointpos_state, p.2.jointvel_state⟩

/-! ## Rate divider (`JointSensorPublisher::PublishSensorData`) -/

/-- Source constant `ONE_MB = 1024 * 1024` (`joint_sensor_publisher.cc:70`). -/
def ONE_MB : ℕ := 1024 * 1024

/-- The divider state: the `uint32_t` member `conter_` and the `double`
member `avg_interval_`, the latter embedded as an exact rational. -/
structure DividerState where
  conter : ℕ
  avg_interval : ℚ
deriving DecidableEq

/-- Modelled from the spec: the member initialisers of `conter_` and
`avg_interval_` live in `joint_sensor_publisher.h`, which is not among the
sources; the spec states both counters start at `0`. -/
def initState : DividerState := ⟨0, 0⟩

/-- One call of `JointSensorPublisher::PublishSensorData`
(`joint_sensor_publisher.cc:69-100`) restricted to its decision state: the
returned flag tells whether the call emits (that is, does not take the
early return at line 72); on an emit the threshold advances by
`avg_interval_base` (line 94) and both counters are reduced by `ONE_MB`
once `conter_` exceeds it (lines 96-99). -/
def PublishSensorDataStep (avg_interval_base : ℚ) (s : DividerState) :
    Bool × DividerState :=
  if (s.conter : ℚ) < s.avg_interval then
    (false, ⟨s.conter + 1, s.avg_interval⟩)
  else
    let conter := s.conter + 1
    let avg_interval := s.avg_interval + avg_interval_base
    if ONE_MB < conter then
      (true, ⟨conter - ONE_MB, avg_interval - (ONE_MB : ℚ)⟩)
    else
      (true, ⟨conter, avg_interval⟩)

/-- Modelled from the spec: the reference divider with renormalization
disabled and unbounded counters, the oracle of the spec's renormalization
property; it is the same step with lines 96-99 removed. -/
def RefStep (avg_interval_base : ℚ) (s : DividerState) : Bool × DividerState :=
  if (s.conter : ℚ) < s.avg_interval then
    (false, ⟨s.conter + 1, s.avg_interval⟩)
  else
    (true, ⟨s.conter + 1, s.avg_interval + avg_interval_base⟩)

/-- State of the real divider after `n` calls, from the initial state. -/
def pubState (avg_interval_base : ℚ) : ℕ → DividerState
  | 0 => initState
  | n + 1 => (PublishSensorDataStep avg_interval_base (pubState avg_interval_base n)).2

/-- Emit decision of the real divider at tick `n` (0-based). -/
def pubEmit (avg_interval_base : ℚ) (n : ℕ) : Bool :=
  (PublishSensorDataStep avg_interval_base (pubState avg_interval_base n)).1

/-- State of the reference divider after `n` calls. -/
def refState (avg_interval_base : ℚ) : ℕ → DividerState
  | 0 => initState
  | n + 1 => (RefStep avg_interval_base (refState avg_interval_base n)).2

/-- Emit decision of the reference divider at tick `n` (0-based). -/
def refEmit (avg_interval_base : ℚ) (n : ℕ) : Bool :=
  (RefStep avg_interval_base (refState avg_interval_base n)).1

/-- Number of emitting ticks in the window `[s, s + N)`. -/
def countEmits (emit : ℕ → Bool) (s N : ℕ) : ℕ :=
  ((List.range N).filter fun i => emit (s + i)).length

/-- Closed form for the number of emissions of the reference divider in its
first `n` ticks (proved below in `refState_eq`). -/
def En (avg_interval_base : ℚ) (n : ℕ) : ℤ :=
  ⌊((n : ℚ) - 1) / avg_interval_base⌋ + 1

end AimrtMujocoSim

namespace AimrtMujocoSim

theorem checkFrequency_of_gt {channel_frq : ℕ} (h : MAX_SIM_FRQ < channel_frq) :
    CheckFrequency channel_frq = some (Except.error FrequencyError.ExceedsTickRate) := by
  unfold CheckFrequency
  rw [if_neg (by omega)]

theorem checkFrequency_ok {channel_frq : ℕ} {base : ℚ}
    (h : CheckFrequency channel_frq = some (Except.ok base)) :
    0 < channel_frq ∧ channel_frq ≤ MAX_SIM_FRQ ∧ base = (MAX_SIM_FRQ : ℚ) / channel_frq := by
  simp only [CheckFrequency] at h
  split_ifs at h with h1 h2 h3 h4
  all_goals simp at h
  all_goals exact ⟨Nat.pos_of_ne_zero (by assumption), by assumption, h.symm⟩

/-- C7: every target frequency strictly above the 1000 Hz ceiling is rejected
with the `ExceedsTickRate` error, so setup aborts. -/
theorem c7_exceeds_tick_rate (channel_frq : ℕ) (h : MAX_SIM_FRQ < channel_frq) :
    CheckFrequency channel_frq = some (Except.error FrequencyError.ExceedsTickRate) :=
  checkFrequency_of_gt h

theorem c7_exceeds_tick_rate_witness :
    MAX_SIM_FRQ < 1001 ∧
      CheckFrequency 1001 = some (Except.error FrequencyError.ExceedsTickRate) :=
  ⟨by decide, c7_exceeds_tick_rate 1001 (by decide)⟩

/-- C5 counterexample: validation at target frequency 333 does not succeed; it
raises `UnachievablePrecision`, because the upper candidate interval 4 deviates
from the base interval 1000/333 ≈ 3.003 by about 33%, far beyond the 5%
tolerance. -/
theorem c5_validate_333_counterexample :
    CheckFrequency 333 = some (Except.error FrequencyError.UnachievablePrecision) := by
  simp only [CheckFrequency, MAX_SIM_FRQ, kError]
  rw [abs_of_nonpos (by norm_num), abs_of_nonneg (by norm_num)]
  norm_num

/-- C5 amended: validation with tick rate 1000 and target frequency 333 fails
with `UnachievablePrecision`; the interval base computed on the way is
1000/333 ≈ 3.003, and the upper interval 4 violates the 5% relative
tolerance. -/
theorem c5_validate_333_amended :
    CheckFrequency 333 = some (Except.error FrequencyError.UnachievablePrecision) ∧
      |(MAX_SIM_FRQ : ℚ) / 333 - 3003 / 1000| < 1 / 100000 ∧
      kError < |((4 : ℕ) : ℚ) - (MAX_SIM_FRQ : ℚ) / 333| / ((MAX_SIM_FRQ : ℚ) / 333) := by
  refine ⟨?_, ?_, ?_⟩
  · simp only [CheckFrequency, MAX_SIM_FRQ, kError]
    rw [abs_of_nonpos (by norm_num), abs_of_nonneg (by norm_num)]
    norm_num
  · rw [abs_of_nonneg (by norm_num [MAX_SIM_FRQ])]
    norm_num [MAX_SIM_FRQ]
  · rw [abs_of_nonneg (by norm_num [MAX_SIM_FRQ])]
    norm_num [MAX_SIM_FRQ, kError]

/-- C6 counterexample: validation at target frequency 7 does not fail; it
succeeds and returns the interval base 1000/7 ≈ 142.857, because both
candidate intervals 142 and 143 are within the 5% relative tolerance. -/
theorem c6_validate_7_counterexample :
    CheckFrequency 7 = some (Except.ok ((MAX_SIM_FRQ : ℚ) / 7)) := by
  simp only [CheckFrequency, MAX_SIM_FRQ, kError]
  rw [abs_of_nonpos (by norm_num), abs_of_nonneg (by norm_num)]
  norm_num

/-- C6 amended: validation with tick rate 1000 and target frequency 7
succeeds with interval base 1000/7, since the two candidate intervals 142
and 143 have relative errors 0.6% and 0.1%, both within the 5% tolerance. -/
theorem c6_validate_7_amended :
    CheckFrequency 7 = some (Except.ok ((MAX_SIM_FRQ : ℚ) / 7)) ∧
      |((142 : ℕ) : ℚ) - (MAX_SIM_FRQ : ℚ) / 7| / ((MAX_SIM_FRQ : ℚ) / 7) ≤ kError ∧
      |((143 : ℕ) : ℚ) - (MAX_SIM_FRQ : ℚ) / 7| / ((MAX_SIM_FRQ : ℚ) / 7) ≤ kError := by
  refine ⟨?_, ?_, ?_⟩
  · simp only [CheckFrequency, MAX_SIM_FRQ, kError]
    rw [abs_of_nonpos (by norm_num), abs_of_nonneg (by norm_num)]
    norm_num
  · rw [abs_of_nonpos (by norm_num [MAX_SIM_FRQ])]
    norm_num [MAX_SIM_FRQ, kError]
  · rw [abs_of_nonneg (by norm_num [MAX_SIM_FRQ])]
    norm_num [MAX_SIM_FRQ, kError]

/-- C10: the only frequency error raised by `CheckFrequency` before the
integer division is the ceiling check, which fires exactly above 1000 Hz;
at target frequency 0 the function does not abort but reaches the division
by zero (embedded as `none`), and it is total exactly on positive
frequencies. -/
theorem c10_zero_frequency_unchecked :
    (∀ channel_frq : ℕ,
        CheckFrequency channel_frq = some (Except.error FrequencyError.ExceedsTickRate) ↔
          MAX_SIM_FRQ < channel_frq) ∧
      CheckFrequency 0 = none ∧
      ∀ channel_frq : ℕ, 0 < channel_frq → (CheckFrequency channel_frq).isSome = true := by
  refine ⟨fun channel_frq => ?_, rfl, fun channel_frq h => ?_⟩
  · constructor
    · intro h
      by_contra hle
      simp only [CheckFrequency] at h
      rw [if_pos (by omega)] at h
      split_ifs at h <;> simp_all
    · exact checkFrequency_of_gt
  · simp only [CheckFrequency]
    split_ifs <;> simp_all

theorem resolveIdx_empty (resolver : String → ℤ) : resolveIdx resolver "" = u32ofInt (-1) := by
  have he : ("" : String).isEmpty = true := rfl
  simp [resolveIdx, he]

theorem i32_u32_neg_one : i32ofU32 (u32ofInt (-1)) = -1 := by decide

theorem readSlot_neg_one (sensordata : ℤ → ℚ) : readSlot sensordata (-1) = 0 := by
  norm_num [readSlot]

/-- The two error checks of `RegisterSensorAddr` compare an unsigned value
against `0` and can therefore never fire: binding always succeeds, with the
configuration-ordered address table and name vector. -/
theorem registerSensorAddr_eq (resolver : String → ℤ) (joints : List JointOptions) :
    RegisterSensorAddr resolver joints =
      Except.ok (joints.map (addrOf resolver), joints.map JointOptions.name) := by
  induction joints with
  | nil => rfl
  | cons joint rest ih =>
    simp only [RegisterSensorAddr]
    rw [if_neg (by simp [Nat.not_lt_zero]), if_neg (by simp [Nat.not_lt_zero]), ih]
    simp [addrOf]

/-- C4 (code bug): with a resolver that knows no names, binding an entity
whose velocity-sensor name is the non-empty `"unknown_vel"` does not fail:
`vel_idx` is a `uint32_t`, so the guard `vel_idx < 0` at
`joint_sensor_publisher.cc:116` is always false, the unresolved sensor is
stored as the narrowed sentinel `-1`, binding completes successfully, and
the snapshot step later reads `0.0` for it as if it were unbound. -/
theorem c4_unknown_sensor_not_rejected :
    RegisterSensorAddr (fun _ => -1) [⟨"joint1", "joint1", "", "unknown_vel"⟩] =
        Except.ok ([⟨-1, -1⟩], ["joint1"]) ∧
      buildStateArray (fun _ => 5) [⟨-1, -1⟩] = [⟨0, 0⟩] := by
  constructor
  · rw [registerSensorAddr_eq]
    have hv : ("unknown_vel" : String).isEmpty = false := rfl
    have he : ("" : String).isEmpty = true := rfl
    simp [addrOf, resolveIdx, hv, he, i32_u32_neg_one]
  · norm_num [buildStateArray, readSlot]

/-- C8: binding always completes with the configuration-ordered table, an
entity with an empty position-sensor name gets the sentinel `-1` in its
position slot and the snapshot step reads that slot back as exactly `0`,
and likewise for an empty velocity-sensor name; no error is possible at
setup or at snapshot time for such an entity. -/
theorem c8_empty_name_sentinel (resolver : String → ℤ) (joints : List JointOptions)
    (sensordata : ℤ → ℚ) (joint : JointOptions) (hmem : joint ∈ joints) :
    RegisterSensorAddr resolver joints =
        Except.ok (joints.map (addrOf resolver), joints.map JointOptions.name) ∧
      (joint.bind_jointpos_sensor = "" →
        (addrOf resolver joint).jointpos_addr = -1 ∧
          readSlot sensordata (addrOf resolver joint).jointpos_addr = 0) ∧
      (joint.bind_jointvel_sensor = "" →
        (addrOf resolver joint).jointvel_addr = -1 ∧
          readSlot sensordata (addrOf resolver joint).jointvel_addr = 0) := by
  refine ⟨registerSensorAddr_eq resolver joints, fun hp => ?_, fun hv => ?_⟩
  · have h1 : (addrOf resolver joint).jointpos_addr = -1 := by
      simp only [addrOf, hp, resolveIdx_empty, i32_u32_neg_one]
    exact ⟨h1, by rw [h1, readSlot_neg_one]⟩
  · have h1 : (addrOf resolver joint).jointvel_addr = -1 := by
      simp only [addrOf, hv, resolveIdx_empty, i32_u32_neg_one]
    exact ⟨h1, by rw [h1, readSlot_neg_one]⟩

theorem c8_empty_name_sentinel_witness :
    (⟨"joint2", "joint2", "", ""⟩ : JointOptions) ∈
        [(⟨"joint2", "joint2", "", ""⟩ : JointOptions)] ∧
      RegisterSensorAddr (fun _ => -1) [(⟨"joint2", "joint2", "", ""⟩ : JointOptions)] =
        Except.ok ([(⟨"joint2", "joint2", "", ""⟩ : JointOptions)].map (addrOf (fun _ => -1)),
          [(⟨"joint2", "joint2", "", ""⟩ : JointOptions)].map JointOptions.name) ∧
      (addrOf (fun _ => -1) ⟨"joint2", "joint2", "", ""⟩).jointpos_addr = -1 ∧
      readSlot (fun _ => 7) (addrOf (fun _ => -1) ⟨"joint2", "joint2", "", ""⟩).jointpos_addr = 0 ∧
      (addrOf (fun _ => -1) ⟨"joint2", "joint2", "", ""⟩).jointvel_addr = -1 ∧
      readSlot (fun _ => 7) (addrOf (fun _ => -1) ⟨"joint2", "joint2", "", ""⟩).jointvel_addr = 0 := by
  have h := c8_empty_name_sentinel (fun _ => -1) [⟨"joint2", "joint2", "", ""⟩]
    (fun _ => 7) ⟨"joint2", "joint2", "", ""⟩ (by simp)
  exact ⟨by simp, h.1, (h.2.1 rfl).1, (h.2.1 rfl).2, (h.2.2 rfl).1, (h.2.2 rfl).2⟩

/-- C9: whenever binding succeeds, the published message is exactly the
configuration list mapped in order to `(name, position, velocity)` records,
so the record order (and the binding-table order) is the configuration
order of the entities; being a pure function of the configuration, the
resolver and the buffer, it is identical across identical runs. -/
theorem c9_order_preserved (resolver : String → ℤ) (joints : List JointOptions)
    (sensordata : ℤ → ℚ) (addrs : List SensorAddrGroup) (names : List String)
    (h : RegisterSensorAddr resolver joints = Except.ok (addrs, names)) :
    buildJointStateMsg names (buildStateArray sensordata addrs) =
        joints.map (fun joint =>
          ⟨joint.name, readSlot sensordata (addrOf resolver joint).jointpos_addr,
            readSlot sensordata (addrOf resolver joint).jointvel_addr⟩) ∧
      (buildJointStateMsg names (buildStateArray sensordata addrs)).map JointStateData.name =
        joints.map JointOptions.name := by
  rw [registerSensorAddr_eq] at h
  simp only [Except.ok.injEq, Prod.mk.injEq] at h
  obtain ⟨haddrs, hnames⟩ := h
  subst haddrs
  subst hnames
  have hmsg : buildJointStateMsg (joints.map JointOptions.name)
      (buildStateArray sensordata (joints.map (addrOf resolver))) =
      joints.map (fun joint =>
        ⟨joint.name, readSlot sensordata (addrOf resolver joint).jointpos_addr,
          readSlot sensordata (addrOf resolver joint).jointvel_addr⟩) := by
    simp only [buildJointStateMsg, buildStateArray, List.map_map, List.zip_map']
    rfl
  exact ⟨hmsg, by rw [hmsg, List.map_map]; rfl⟩

theorem c9_order_preserved_witness :
    buildJointStateMsg ["joint1", "joint2"]
        (buildStateArray (fun i => if i = 1 then 3 / 2 else if i = 2 then -1 / 5 else 0)
          [⟨1, 2⟩, ⟨-1, -1⟩]) =
      [(⟨"joint1", "joint1", "pos1", "vel1"⟩ : JointOptions),
        ⟨"joint2", "joint2", "", ""⟩].map (fun joint =>
          ⟨joint.name,
            readSlot (fun i => if i = 1 then 3 / 2 else if i = 2 then -1 / 5 else 0)
              (addrOf (fun n => if n = "pos1" then 1 else if n = "vel1" then 2 else -1)
                joint).jointpos_addr,
            readSlot (fun i => if i = 1 then 3 / 2 else if i = 2 then -1 / 5 else 0)
              (addrOf (fun n => if n = "pos1" then 1 else if n = "vel1" then 2 else -1)
                joint).jointvel_addr⟩) := by
  have h := c9_order_preserved
    (fun n => if n = "pos1" then 1 else if n = "vel1" then 2 else -1)
    [⟨"joint1", "joint1", "pos1", "vel1"⟩, ⟨"joint2", "joint2", "", ""⟩]
    (fun i => if i = 1 then 3 / 2 else if i = 2 then -1 / 5 else 0)
    [⟨1, 2⟩, ⟨-1, -1⟩] ["joint1", "joint2"] (by rfl)
  exact h.1

/-- Renormalization invariant: after any number of ticks the reference
state is the real state shifted by a whole number of `ONE_MB` reductions,
identically in both counters. -/
theorem pubState_rel (avg_interval_base : ℚ) (n : ℕ) :
    ∃ j : ℕ,
      (refState avg_interval_base n).conter =
          (pubState avg_interval_base n).conter + j * ONE_MB ∧
        (refState avg_interval_base n).avg_interval =
          (pubState avg_interval_base n).avg_interval + ((j * ONE_MB : ℕ) : ℚ) := by
  induction n with
  | zero => exact ⟨0, by simp [refState, pubState]⟩
  | succ n ih =>
    obtain ⟨j, hc, ha⟩ := ih
    simp only [refState, pubState, RefStep, PublishSensorDataStep]
    rw [hc, ha]
    have hiff :
        ((((pubState avg_interval_base n).conter + j * ONE_MB : ℕ) : ℚ) <
            (pubState avg_interval_base n).avg_interval + ((j * ONE_MB : ℕ) : ℚ)) ↔
          (((pubState avg_interval_base n).conter : ℚ) <
            (pubState avg_interval_base n).avg_interval) := by
      push_cast
      constructor <;> intro <;> linarith
    by_cases h :
      ((pubState avg_interval_base n).conter : ℚ) <
        (pubState avg_interval_base n).avg_interval
    · rw [if_pos (hiff.mpr h), if_pos h]
      refine ⟨j, ?_, rfl⟩
      show (pubState avg_interval_base n).conter + j * ONE_MB + 1 =
        (pubState avg_interval_base n).conter + 1 + j * ONE_MB
      omega
    · rw [if_neg (fun hh => h (hiff.mp hh)), if_neg h]
      by_cases hM : ONE_MB < (pubState avg_interval_base n).conter + 1
      · rw [if_pos hM]
        refine ⟨j + 1, ?_, ?_⟩
        · show (pubState avg_interval_base n).conter + j * ONE_MB + 1 =
            (pubState avg_interval_base n).conter + 1 - ONE_MB + (j + 1) * ONE_MB
          simp only [ONE_MB] at hM ⊢
          omega
        · show (pubState avg_interval_base n).avg_interval + ((j * ONE_MB : ℕ) : ℚ) +
              avg_interval_base =
            (pubState avg_interval_base n).avg_interval + avg_interval_base - (ONE_MB : ℚ) +
              (((j + 1) * ONE_MB : ℕ) : ℚ)
          push_cast
          ring
      · rw [if_neg hM]
        refine ⟨j, ?_, ?_⟩
        · show (pubState avg_interval_base n).conter + j * ONE_MB + 1 =
            (pubState avg_interval_base n).conter + 1 + j * ONE_MB
          omega
        · show (pubState avg_interval_base n).avg_interval + ((j * ONE_MB : ℕ) : ℚ) +
              avg_interval_base =
            (pubState avg_interval_base n).avg_interval + avg_interval_base +
              ((j * ONE_MB : ℕ) : ℚ)
          ring

/-- Renormalization never changes an emit decision: the real divider and
the unbounded reference divider agree at every tick. -/
theorem pubEmit_eq_refEmit (avg_interval_base : ℚ) (n : ℕ) :
    pubEmit avg_interval_base n = refEmit avg_interval_base n := by
  obtain ⟨j, hc, ha⟩ := pubState_rel avg_interval_base n
  unfold pubEmit refEmit
  simp only [PublishSensorDataStep, RefStep]
  rw [hc, ha]
  have hiff :
      ((((pubState avg_interval_base n).conter + j * ONE_MB : ℕ) : ℚ) <
          (pubState avg_interval_base n).avg_interval + ((j * ONE_MB : ℕ) : ℚ)) ↔
        (((pubState avg_interval_base n).conter : ℚ) <
          (pubState avg_interval_base n).avg_interval) := by
    push_cast
    constructor <;> intro <;> linarith
  by_cases h :
    ((pubState avg_interval_base n).conter : ℚ) <
      (pubState avg_interval_base n).avg_interval
  · rw [if_pos h, if_pos (hiff.mpr h)]
  · rw [if_neg h, if_neg (fun hh => h (hiff.mp hh))]
    by_cases hM : ONE_MB < (pubState avg_interval_base n).conter + 1
    · rw [if_pos hM]
    · rw [if_neg hM]

/-- C3: renormalization is transparent — for every valid frequency pair,
at each of the first `10 × ONE_MB` ticks the real divider's emit/skip
decision equals the reference divider's with renormalization disabled and
unbounded counters (exactly, because the `double` accumulator is embedded
as an exact rational). -/
theorem c3_renormalization_transparent (channel_frq : ℕ) (base : ℚ)
    (hvalid : CheckFrequency channel_frq = some (Except.ok base))
    (n : ℕ) (hn : n < 10 * ONE_MB) :
    pubEmit base n = refEmit base n :=
  pubEmit_eq_refEmit base n

theorem c3_renormalization_transparent_witness :
    CheckFrequency 500 = some (Except.ok 2) ∧ 3 < 10 * ONE_MB ∧
      pubEmit 2 3 = refEmit 2 3 :=
  ⟨by norm_num [CheckFrequency, MAX_SIM_FRQ],
    by norm_num [ONE_MB],
    c3_renormalization_transparent 500 2
      (by norm_num [CheckFrequency, MAX_SIM_FRQ]) 3 (by norm_num [ONE_MB])⟩

theorem en_zero {q : ℚ} (hq : 1 ≤ q) : En q 0 = 0 := by
  have hq0 : (0 : ℚ) < q := lt_of_lt_of_le one_pos hq
  have h1 : (-1 : ℚ) ≤ ((0 : ℚ) - 1) / q := by
    rw [le_div_iff hq0]
    linarith
  have h2 : ((0 : ℚ) - 1) / q < 0 := div_neg_of_neg_of_pos (by norm_num) hq0
  simp only [En, Nat.cast_zero]
  have hfl : ⌊((0 : ℚ) - 1) / q⌋ = -1 := by
    rw [Int.floor_eq_iff]
    push_cast
    exact ⟨h1, by linarith⟩
  rw [hfl]
  norm_num

theorem en_succ_of_lt {q : ℚ} (hq : 1 ≤ q) {n : ℕ} (h : (n : ℚ) < q * En q n) :
    En q (n + 1) = En q n := by
  have hq0 : (0 : ℚ) < q := lt_of_lt_of_le one_pos hq
  unfold En at h ⊢
  have hcast : (((n + 1 : ℕ) : ℚ) - 1) = (n : ℚ) := by push_cast; ring
  rw [hcast]
  have hub : (n : ℚ) / q < (⌊((n : ℚ) - 1) / q⌋ : ℚ) + 1 := by
    rw [div_lt_iff hq0]
    push_cast at h
    linarith [mul_comm q ((⌊((n : ℚ) - 1) / q⌋ : ℚ) + 1)]
  have hlb : (⌊((n : ℚ) - 1) / q⌋ : ℚ) ≤ (n : ℚ) / q :=
    le_trans (Int.floor_le _) ((div_le_div_right hq0).mpr (by linarith))
  have hfl : ⌊(n : ℚ) / q⌋ = ⌊((n : ℚ) - 1) / q⌋ := by
    rw [Int.floor_eq_iff]
    exact ⟨hlb, hub⟩
  rw [hfl]

theorem en_succ_of_ge {q : ℚ} (hq : 1 ≤ q) {n : ℕ} (h : q * En q n ≤ (n : ℚ)) :
    En q (n + 1) = En q n + 1 := by
  have hq0 : (0 : ℚ) < q := lt_of_lt_of_le one_pos hq
  unfold En at h ⊢
  have hcast : (((n + 1 : ℕ) : ℚ) - 1) = (n : ℚ) := by push_cast; ring
  rw [hcast]
  have hlb : ((⌊((n : ℚ) - 1) / q⌋ + 1 : ℤ) : ℚ) ≤ (n : ℚ) / q := by
    rw [le_div_iff hq0]
    push_cast at h ⊢
    linarith [mul_comm q ((⌊((n : ℚ) - 1) / q⌋ : ℚ) + 1)]
  have hub : (n : ℚ) / q < ((⌊((n : ℚ) - 1) / q⌋ + 1 : ℤ) : ℚ) + 1 := by
    have h1 : (n : ℚ) / q = ((n : ℚ) - 1) / q + 1 / q := by ring
    have h2 : (1 : ℚ) / q ≤ 1 := by
      rw [div_le_one hq0]
      exact hq
    have h3 : ((n : ℚ) - 1) / q < ⌊((n : ℚ) - 1) / q⌋ + 1 := Int.lt_floor_add_one _
    push_cast
    linarith
  have hfl : ⌊(n : ℚ) / q⌋ = ⌊((n : ℚ) - 1) / q⌋ + 1 := by
    rw [Int.floor_eq_iff]
    exact ⟨hlb, hub⟩
  rw [hfl]

theorem en_succ_cases {q : ℚ} (hq : 1 ≤ q) (n : ℕ) :
    En q (n + 1) = En q n ∨ En q (n + 1) = En q n + 1 := by
  by_cases h : (n : ℚ) < q * En q n
  · exact Or.inl (en_succ_of_lt hq h)
  · exact Or.inr (en_succ_of_ge hq (le_of_not_lt h))

/-- Closed form of the reference divider's state: after `n` ticks the tick
counter is `n` and the threshold is `IntervalBase` times the number of
emissions so far. -/
theorem refState_eq {q : ℚ} (hq : 1 ≤ q) (n : ℕ) :
    refState q n = ⟨n, q * En q n⟩ := by
  induction n with
  | zero => simp [refState, initState, en_zero hq]
  | succ n ih =>
    simp only [refState, ih, RefStep]
    by_cases h : (n : ℚ) < q * En q n
    · rw [if_pos h, en_succ_of_lt hq h]
    · rw [if_neg h, en_succ_of_ge hq (le_of_not_lt h)]
      simp only [DividerState.mk.injEq, true_and]
      push_cast
      ring

theorem refEmit_true_iff {q : ℚ} (hq : 1 ≤ q) (n : ℕ) :
    refEmit q n = true ↔ En q (n + 1) = En q n + 1 := by
  unfold refEmit
  rw [refState_eq hq]
  unfold RefStep
  by_cases h : (n : ℚ) < q * En q n
  · rw [if_pos h]
    have he := en_succ_of_lt hq h
    rw [he]
    constructor
    · intro hh
      simp at hh
    · intro hh
      omega
  · rw [if_neg h]
    have he := en_succ_of_ge hq (le_of_not_lt h)
    simp [he]

/-- Emission count of the reference divider over the window `[s, s + N)`. -/
theorem countEmits_ref {q : ℚ} (hq : 1 ≤ q) (s N : ℕ) :
    (countEmits (refEmit q) s N : ℤ) = En q (s + N) - En q s := by
  induction N with
  | zero => simp [countEmits]
  | succ N ih =>
    have hsplit : countEmits (refEmit q) s (N + 1) =
        countEmits (refEmit q) s N + (if refEmit q (s + N) = true then 1 else 0) := by
      unfold countEmits
      rw [List.range_succ, List.filter_append, List.length_append]
      by_cases h : refEmit q (s + N) = true <;> simp [h]
    have hsn : s + (N + 1) = (s + N) + 1 := by omega
    rw [hsplit, hsn]
    push_cast
    rcases en_succ_cases hq (s + N) with hc | hc
    · have hne : ¬ refEmit q (s + N) = true := by
        rw [refEmit_true_iff hq]
        omega
      rw [if_neg hne, hc, add_zero, ih]
    · have hem : refEmit q (s + N) = true := by
        rw [refEmit_true_iff hq]
        exact hc
      rw [if_pos hem, hc]
      omega

theorem checkFrequency_base_ge_one {channel_frq : ℕ} {base : ℚ}
    (h : CheckFrequency channel_frq = some (Except.ok base)) : 1 ≤ base := by
  obtain ⟨h0, hle, hbase⟩ := checkFrequency_ok h
  have hf : (0 : ℚ) < channel_frq := by exact_mod_cast h0
  rw [hbase, le_div_iff hf, one_mul]
  exact_mod_cast hle

/-- C1: for every frequency accepted at setup and every window of `N`
consecutive calls, the number of calls of `PublishSensorData` that decide
to emit is within `±1` of `round (N × targetFrequency / tickRate)`. -/
theorem c1_emit_count_window (channel_frq : ℕ) (base : ℚ)
    (hvalid : CheckFrequency channel_frq = some (Except.ok base)) (s N : ℕ) :
    |(countEmits (pubEmit base) s N : ℤ) -
        round ((N : ℚ) * (channel_frq : ℚ) / (MAX_SIM_FRQ : ℚ))| ≤ 1 := by
  obtain ⟨h0, hle, hbase⟩ := checkFrequency_ok hvalid
  have hq : 1 ≤ base := checkFrequency_base_ge_one hvalid
  have hq0 : (0 : ℚ) < base := lt_of_lt_of_le one_pos hq
  have hfun : pubEmit base = refEmit base := funext (pubEmit_eq_refEmit base)
  rw [hfun, countEmits_ref hq]
  have harg : (N : ℚ) * (channel_frq : ℚ) / (MAX_SIM_FRQ : ℚ) = (N : ℚ) / base := by
    rw [hbase]
    have hf : (channel_frq : ℚ) ≠ 0 := Nat.cast_ne_zero.mpr (by omega)
    have hM : (MAX_SIM_FRQ : ℚ) ≠ 0 := by norm_num [MAX_SIM_FRQ]
    field_simp
    try ring
  rw [harg]
  have hxy : (((s + N : ℕ) : ℚ) - 1) / base = ((s : ℚ) - 1) / base + (N : ℚ) / base := by
    push_cast
    ring
  unfold En
  rw [hxy]
  have hf1 : (⌊((s : ℚ) - 1) / base⌋ : ℚ) ≤ ((s : ℚ) - 1) / base := Int.floor_le _
  have hf2 : ((s : ℚ) - 1) / base < ⌊((s : ℚ) - 1) / base⌋ + 1 := Int.lt_floor_add_one _
  have hf3 : (⌊(N : ℚ) / base⌋ : ℚ) ≤ (N : ℚ) / base := Int.floor_le _
  have hf4 : (N : ℚ) / base < ⌊(N : ℚ) / base⌋ + 1 := Int.lt_floor_add_one _
  have hl1 : ⌊((s : ℚ) - 1) / base⌋ + ⌊(N : ℚ) / base⌋ ≤
      ⌊((s : ℚ) - 1) / base + (N : ℚ) / base⌋ := by
    apply Int.le_floor.mpr
    push_cast
    linarith
  have hl2 : ⌊((s : ℚ) - 1) / base + (N : ℚ) / base⌋ <
      ⌊((s : ℚ) - 1) / base⌋ + ⌊(N : ℚ) / base⌋ + 2 := by
    apply Int.floor_lt.mpr
    push_cast
    linarith
  have hr1 : ⌊(N : ℚ) / base⌋ ≤ round ((N : ℚ) / base) := by
    rw [round_eq]
    exact Int.floor_mono (by linarith)
  have hr2 : round ((N : ℚ) / base) ≤ ⌊(N : ℚ) / base⌋ + 1 := by
    rw [round_eq]
    have h1 := Int.floor_mono (show (N : ℚ) / base + 1 / 2 ≤ (N : ℚ) / base + 1 by linarith)
    rwa [Int.floor_add_one] at h1
  rw [abs_le]
  omega

theorem c1_emit_count_window_witness :
    CheckFrequency 500 = some (Except.ok 2) ∧
      |(countEmits (pubEmit 2) 0 4 : ℤ) -
          round (((4 : ℕ) : ℚ) * ((500 : ℕ) : ℚ) / (MAX_SIM_FRQ : ℚ))| ≤ 1 :=
  ⟨by norm_num [CheckFrequency, MAX_SIM_FRQ],
    c1_emit_count_window 500 2 (by norm_num [CheckFrequency, MAX_SIM_FRQ]) 0 4⟩

/-- C2: for every frequency accepted at setup, the number of ticks between
two consecutive emissions of `PublishSensorData` is either the floor or the
ceiling of `tickRate / targetFrequency`. -/
theorem c2_gap_two_values (channel_frq : ℕ) (base : ℚ)
    (hvalid : CheckFrequency channel_frq = some (Except.ok base))
    (t t' : ℕ) (ht : pubEmit base t = true) (ht' : pubEmit base t' = true)
    (htt : t < t') (hbetween : ∀ u, t < u → u < t' → pubEmit base u = false) :
    ((t' - t : ℕ) : ℤ) = ⌊base⌋ ∨ ((t' - t : ℕ) : ℤ) = ⌈base⌉ := by
  have hq : 1 ≤ base := checkFrequency_base_ge_one hvalid
  have hq0 : (0 : ℚ) < base := lt_of_lt_of_le one_pos hq
  rw [pubEmit_eq_refEmit] at ht ht'
  have hbet : ∀ u, t < u → u < t' → refEmit base u = false := fun u h1 h2 => by
    rw [← pubEmit_eq_refEmit]
    exact hbetween u h1 h2
  have hconst : ∀ u, t + 1 ≤ u → u ≤ t' → En base u = En base (t + 1) := by
    intro u
    induction u with
    | zero => intro h1 h2; omega
    | succ u ihu =>
      intro h1 h2
      rcases Nat.lt_or_ge (t + 1) (u + 1) with hgt | hle2
      · have hne : refEmit base u = false := hbet u (by omega) (by omega)
        have hstep : En base (u + 1) = En base u := by
          rcases en_succ_cases hq u with hc | hc
          · exact hc
          · have := (refEmit_true_iff hq u).mpr hc
            simp [hne] at this
        rw [hstep, ihu (by omega) (by omega)]
      · have heq : u + 1 = t + 1 := by omega
        rw [heq]
  have hEt : En base (t + 1) = En base t + 1 := (refEmit_true_iff hq t).mp ht
  have hEt' : En base (t' + 1) = En base t' + 1 := (refEmit_true_iff hq t').mp ht'
  have hEtt' : En base t' = En base t + 1 := by
    rw [hconst t' (by omega) (le_refl t'), hEt]
  set m : ℤ := ⌊((t : ℚ) - 1) / base⌋ with hm
  have hcast1 : (((t + 1 : ℕ) : ℚ) - 1) = (t : ℚ) := by push_cast; ring
  have hcast2 : (((t' + 1 : ℕ) : ℚ) - 1) = (t' : ℚ) := by push_cast; ring
  have hft : ⌊(t : ℚ) / base⌋ = m + 1 := by
    have h1 := hEt
    unfold En at h1
    rw [hcast1, ← hm] at h1
    omega
  have hftm : ⌊((t' : ℚ) - 1) / base⌋ = m + 1 := by
    have h1 := hEtt'
    unfold En at h1
    rw [← hm] at h1
    omega
  have hft' : ⌊(t' : ℚ) / base⌋ = m + 2 := by
    have h1 := hEt'
    unfold En at h1
    rw [hcast2, hftm] at h1
    omega
  have hA : ((m : ℚ) + 1) * base ≤ (t : ℚ) := by
    have h1 : ((m + 1 : ℤ) : ℚ) ≤ (t : ℚ) / base := by
      rw [← hft]
      exact Int.floor_le _
    rw [le_div_iff hq0] at h1
    push_cast at h1
    linarith
  have hB : (t : ℚ) - 1 < ((m : ℚ) + 1) * base := by
    have h1 := Int.lt_floor_add_one (((t : ℚ) - 1) / base)
    rw [← hm] at h1
    rw [div_lt_iff hq0] at h1
    push_cast at h1
    linarith
  have hC : (t' : ℚ) - 1 < ((m : ℚ) + 2) * base := by
    have h1 := Int.lt_floor_add_one (((t' : ℚ) - 1) / base)
    rw [hftm] at h1
    rw [div_lt_iff hq0] at h1
    push_cast at h1
    linarith
  have hD : ((m : ℚ) + 2) * base ≤ (t' : ℚ) := by
    have h1 : ((m + 2 : ℤ) : ℚ) ≤ (t' : ℚ) / base := by
      rw [← hft']
      exact Int.floor_le _
    rw [le_div_iff hq0] at h1
    push_cast at h1
    linarith
  have hsplit : ((m : ℚ) + 2) * base = ((m : ℚ) + 1) * base + base := by ring
  have hgap1 : base - 1 < (t' : ℚ) - (t : ℚ) := by linarith
  have hgap2 : (t' : ℚ) - (t : ℚ) < base + 1 := by linarith
  set g : ℤ := ((t' - t : ℕ) : ℤ) with hg
  have hgcast : ((g : ℤ) : ℚ) = (t' : ℚ) - (t : ℚ) := by
    rw [hg]
    have h1 : ((t' - t : ℕ) : ℤ) = (t' : ℤ) - (t : ℤ) := by omega
    rw [h1]
    push_cast
    ring
  have hfl : ⌊base⌋ ≤ g := by
    by_contra hcon
    push_neg at hcon
    have h2 : g ≤ ⌊base⌋ - 1 := by omega
    have h3 : ((g : ℤ) : ℚ) ≤ ((⌊base⌋ - 1 : ℤ) : ℚ) := Int.cast_le.mpr h2
    have h4 : (⌊base⌋ : ℚ) ≤ base := Int.floor_le base
    rw [hgcast] at h3
    push_cast at h3
    linarith
  have hceil : g ≤ ⌈base⌉ := by
    by_contra hcon
    push_neg at hcon
    have h2 : ⌈base⌉ + 1 ≤ g := by omega
    have h3 : ((⌈base⌉ + 1 : ℤ) : ℚ) ≤ ((g : ℤ) : ℚ) := Int.cast_le.mpr h2
    have h4 : base ≤ (⌈base⌉ : ℚ) := Int.le_ceil base
    rw [hgcast] at h3
    push_cast at h3
    linarith
  have hcf : ⌈base⌉ ≤ ⌊base⌋ + 1 := Int.ceil_le_floor_add_one base
  omega

theorem c2_gap_two_values_witness :
    CheckFrequency 500 = some (Except.ok 2) ∧
      (((2 - 0 : ℕ) : ℤ) = ⌊(2 : ℚ)⌋ ∨ ((2 - 0 : ℕ) : ℤ) = ⌈(2 : ℚ)⌉) :=
  ⟨by norm_num [CheckFrequency, MAX_SIM_FRQ],
    c2_gap_two_values 500 2 (by norm_num [CheckFrequency, MAX_SIM_FRQ]) 0 2
      (by norm_num [pubEmit, pubState, initState, PublishSensorDataStep, ONE_MB])
      (by norm_num [pubEmit, pubState, initState, PublishSensorDataStep, ONE_MB])
      (by norm_num)
      (fun u h1 h2 => by
        have hu : u = 1 := by omega
        subst hu
        norm_num [pubEmit, pubState, initState, PublishSensorDataStep, ONE_MB])⟩

theorem c10_zero_frequency_unchecked_witness :
    (CheckFrequency 1001 = some (Except.error FrequencyError.ExceedsTickRate)) ∧
      CheckFrequency 0 = none ∧
      (0 < 5 ∧ (CheckFrequency 5).isSome = true) :=
  ⟨(c10_zero_frequency_unchecked.1 1001).mpr (by decide),
    c10_zero_frequency_unchecked.2.1,
    by decide, c10_zero_frequency_unchecked.2.2 5 (by decide)⟩

end AimrtMujocoSim
